import Mathlib

/-!
# Verification of the pymodbus TCP socket framer and transport base

Shallow embedding of `pymodbus/framer/socket_framer.py`
(`ModbusSocketFramer`) and `pymodbus/transport/transport_base.py`
(`BaseTransport`), together with proofs about the claims of the
specification.

Bytes are modelled as `Nat` (with explicit `% 256` / `% 65536` where the
Python `struct` module packs values), byte buffers as `List Nat`, the
mutable framer object as an explicit `FramerState` value, and the
`while True` decode loop of `processIncomingPacket` as a fuel-indexed
structural recursion whose fuel (`buffer length + 1`) is proved
sufficient (`processLoop_no_fuelExhausted`).  Python exceptions become
the `.error` side of `Except`, carrying the framer state at the moment
of the raise (the Python object keeps its mutated state when an
exception escapes).
-/

namespace Pymodbus

/-- MBAP header, the parsed form of `self._header`
(`{"tid": 0, "pid": 0, "len": 0, "uid": 0}`). -/
structure Header where
  tid : Nat
  pid : Nat
  len : Nat
  uid : Nat
  deriving DecidableEq

/-- The zeroed header dict used by `__init__`, `advanceFrame` and
`resetFrame`. -/
def emptyHeader : Header := ⟨0, 0, 0, 0⟩

/-- The mutable state of a `ModbusSocketFramer`: `self._buffer` and
`self._header`.  (`self._hsize` is the constant `0x07`.) -/
structure FramerState where
  buffer : List Nat
  header : Header
  deriving DecidableEq

/-- `self._hsize = 0x07`. -/
def hsize : Nat := 7

/-- Framer state right after `__init__`: empty buffer, zeroed header. -/
def initialState : FramerState := ⟨[], emptyHeader⟩

/-- A decoded PDU object as returned by `decoder.decode` and then
mutated by `populateResult`: `function_code` plus the decoded payload,
and the `transaction_id` / `protocol_id` / `unit_id` attributes. -/
structure MbResult where
  function_code : Nat
  data : List Nat
  transaction_id : Nat
  protocol_id : Nat
  unit_id : Nat
  deriving DecidableEq

/-- The injected PDU decoder factory: `self.decoder.decode(data)`
returns a result object or `None`. -/
def Decoder : Type := List Nat → Option MbResult

/-- The exceptions `processIncomingPacket` can raise:
`ModbusIOException("Unable to decode request")` and
`InvalidMessageReceivedException(result)`; `fuelExhausted` is the
(provably unreachable) fuel bound of the loop embedding. -/
inductive MbError where
  | unableToDecode : MbError
  | invalidMessageReceived : MbResult → MbError
  | fuelExhausted : MbError
  deriving DecidableEq

/-- An escaping exception together with the framer state at raise time
and the results already delivered to the callback before the raise. -/
structure RunError where
  err : MbError
  state : FramerState
  delivered : List MbResult
  deriving DecidableEq

/-- `buf[i]` with default 0; `struct.unpack` is only reached under the
`isFrameReady` guard, where all seven indices exist. -/
def byteAt (buf : List Nat) (i : Nat) : Nat := buf.getD i 0

/-- `struct.unpack(">HHHB", buffer[0:7])`: big-endian u16 tid, pid, len
and u8 uid. -/
def parseHeader (buf : List Nat) : Header :=
  { tid := byteAt buf 0 * 256 + byteAt buf 1
    pid := byteAt buf 2 * 256 + byteAt buf 3
    len := byteAt buf 4 * 256 + byteAt buf 5
    uid := byteAt buf 6 }

/-- `isFrameReady`: `len(self._buffer) > self._hsize`. -/
def isFrameReady (s : FramerState) : Prop := hsize < s.buffer.length

instance (s : FramerState) : Decidable (isFrameReady s) :=
  inferInstanceAs (Decidable (hsize < s.buffer.length))

/-- `addToFrame`: `self._buffer += message`. -/
def addToFrame (s : FramerState) (message : List Nat) : FramerState :=
  { s with buffer := s.buffer ++ message }

/-- `advanceFrame`: drop `self._hsize + self._header["len"] - 1` bytes
and zero the header. -/
def advanceFrame (s : FramerState) : FramerState :=
  { buffer := s.buffer.drop (hsize + s.header.len - 1), header := emptyHeader }

/-- `resetFrame`: discard the whole buffer and zero the header. -/
def resetFrame (_ : FramerState) : FramerState :=
  { buffer := [], header := emptyHeader }

/-- `getFrame`: `self._buffer[self._hsize : self._hsize + len - 1]`. -/
def getFrame (s : FramerState) : List Nat :=
  (s.buffer.take (hsize + s.header.len - 1)).drop hsize

/-- `getRawFrame`: the complete buffer. -/
def getRawFrame (s : FramerState) : List Nat := s.buffer

/-- `populateResult`: copy `tid`, `pid`, `uid` from the current header
onto the result object. -/
def populateResult (s : FramerState) (result : MbResult) : MbResult :=
  { result with
      transaction_id := s.header.tid
      protocol_id := s.header.pid
      unit_id := s.header.uid }

/-- `checkFrame`: when ready, parse the header into the state; a header
length below 2 advances past the (supposed) frame and reports failure;
a fully buffered body reports success; otherwise failure with the
parsed header retained.  The subtraction `len(buffer) - hsize + 1` is
only evaluated under the readiness guard, where `buffer.length ≥ 8`. -/
def checkFrame (s : FramerState) : Bool × FramerState :=
  if isFrameReady s then
    let h := parseHeader s.buffer
    let s1 : FramerState := { s with header := h }
    if h.len < 2 then (false, advanceFrame s1)
    else if h.len ≤ s1.buffer.length - hsize + 1 then (true, s1)
    else (false, s1)
  else (false, s)

/-- Modelled from the spec: `ModbusFramer._validate_unit_id` lives in
`pymodbus/framer/__init__.py`, which is not part of this source tree.
Per the spec, a frame is processed when its unit id is in the accepted
list and ignored otherwise, while `single` mode accepts any unit id. -/
def validate_unit_id (units : List Nat) (single : Bool) (h : Header) : Bool :=
  single || units.contains h.uid

/-- `_process(callback, error)`: decode the raw buffer (on the error
path) or the framed PDU, raise `ModbusIOException` when the decoder
returns `None`, raise `InvalidMessageReceivedException` on the error
path for a non-exception function code, else populate the result,
advance the frame and hand the result to the callback (returned here). -/
def processFrame (d : Decoder) (s : FramerState) (error : Bool) :
    Except (MbError × FramerState) (FramerState × MbResult) :=
  let data := if error then getRawFrame s else getFrame s
  match d data with
  | none => .error (.unableToDecode, s)
  | some result =>
    if error = true ∧ result.function_code < 0x80 then
      .error (.invalidMessageReceived result, s)
    else
      .ok (advanceFrame s, populateResult s result)

/-- The `while True` loop of `processIncomingPacket`, indexed by fuel.
Every iteration that loops again strictly shrinks the buffer, so fuel
`buffer length + 1` never runs out (`processLoop_no_fuelExhausted`). -/
def processLoop (d : Decoder) (units : List Nat) (single : Bool) :
    Nat → FramerState → List MbResult → Except RunError (FramerState × List MbResult)
  | 0, s, acc => .error ⟨.fuelExhausted, s, acc⟩
  | fuel + 1, s, acc =>
    if isFrameReady s then
      match checkFrame s with
      | (true, s1) =>
        if validate_unit_id units single s1.header then
          match processFrame d s1 false with
          | .error e => .error ⟨e.1, e.2, acc⟩
          | .ok (s2, r) => processLoop d units single fuel s2 (acc ++ [r])
        else
          processLoop d units single fuel (resetFrame s1) acc
      | (false, s1) => processLoop d units single fuel (resetFrame s1) acc
    else
      if s.buffer ≠ [] ∧ s.header.len < 2 then
        match processFrame d s true with
        | .error e => .error ⟨e.1, e.2, acc⟩
        | .ok (s2, r) => .ok (s2, acc ++ [r])
      else
        .ok (s, acc)

/-- `processIncomingPacket(data, callback, unit, single=...)`: append
the data, then run the decode loop.  The returned list is the sequence
of results pushed to the callback, in order. -/
def processIncomingPacket (d : Decoder) (units : List Nat) (single : Bool)
    (s : FramerState) (data : List Nat) :
    Except RunError (FramerState × List MbResult) :=
  let s1 := addToFrame s data
  processLoop d units single (s1.buffer.length + 1) s1 []

/-- A request/response object as consumed by `buildPacket`:
`message.encode()` is the `data` field (the PDU payload after the
function code). -/
structure ModbusMessage where
  transaction_id : Nat
  protocol_id : Nat
  unit_id : Nat
  function_code : Nat
  data : List Nat
  deriving DecidableEq

/-- Big-endian `struct.pack(">H", x)`; the Python call raises unless
`x < 65536`, which the theorems assume. -/
def u16be (x : Nat) : List Nat := [x / 256 % 256, x % 256]

/-- `struct.pack(">B", x)`; the Python call raises unless `x < 256`. -/
def u8v (x : Nat) : Nat := x % 256

/-- `buildPacket`: `struct.pack(SOCKET_FRAME_HEADER, tid, pid,
len(data) + 2, uid, fc) + data`, with `SOCKET_FRAME_HEADER = ">HHHBB"`
(its use in `decode_data` and `buildPacket` fixes the format). -/
def buildPacket (m : ModbusMessage) : List Nat :=
  u16be m.transaction_id ++ u16be m.protocol_id ++
    u16be (m.data.length + 2) ++ [u8v m.unit_id, u8v m.function_code] ++ m.data

/-- A PDU decoder that accepts any nonempty byte string, reading the
first byte as the function code (used to instantiate runs). -/
def decdr : Decoder := fun bs =>
  match bs with
  | [] => none
  | f :: rest => some ⟨f, rest, 0, 0, 0⟩

/-- A PDU decoder that fails exactly on function code `0x55` (used to
exercise the decode-failure path). -/
def dBad : Decoder := fun bs =>
  match bs with
  | [] => none
  | f :: rest => if f = 0x55 then none else some ⟨f, rest, 0, 0, 0⟩

/-- States of one framer object over its lifetime: the initial state
and everything produced by calls to `processIncomingPacket` (for calls
that raise, the state at raise time, which the Python object keeps). -/
inductive Reachable (d : Decoder) : FramerState → Prop where
  | init : Reachable d initialState
  | stepOk : ∀ {s : FramerState} {units : List Nat} {single : Bool} {data : List Nat}
      {s' : FramerState} {rs : List MbResult}, Reachable d s →
      processIncomingPacket d units single s data = .ok (s', rs) → Reachable d s'
  | stepErr : ∀ {s : FramerState} {units : List Nat} {single : Bool} {data : List Nat}
      {e : RunError}, Reachable d s →
      processIncomingPacket d units single s data = .error e → Reachable d e.state

/-- Invariant of reachable framer states: a header length of 2 or more
only persists while the buffer is still ready. -/
def headerInv (s : FramerState) : Prop :=
  s.header.len < 2 ∨ hsize < s.buffer.length

/-! ## Transport base (`pymodbus/transport/transport_base.py`)

The observable behaviour of a callback object is modelled as the list
of events it emits: the stock `BaseTransportProtocol` methods only call
`_log_event`, while invoking a user-supplied callbacks object is the
observation the claim is about. -/

/-- Observable effect of one callback invocation. -/
inductive TransportEvent where
  | logEvent : String → TransportEvent
  | userCallback : String → Nat → TransportEvent
  deriving DecidableEq

/-- What `self._cbs` could hold: a fresh `BaseTransportProtocol` (its
methods only log) or some user-supplied callbacks object. -/
inductive CallbackSink where
  | defaultProtocol : CallbackSink
  | user : Nat → CallbackSink
  deriving DecidableEq

/-- State of a `BaseTransport` object (`_is_server`, `_cbs`,
`_transport`; the event loop and `_protocol` are irrelevant here). -/
structure BaseTransportState where
  is_server : Bool
  cbs : CallbackSink
  transport : Option Nat
  deriving DecidableEq

/-- `BaseTransport.__init__(is_server, callbacks)`: stores `is_server`
and sets `self._cbs = BaseTransportProtocol()`; the `callbacks`
parameter is never referenced. -/
def baseTransportInit (is_server : Bool) (callbacks : Option CallbackSink) :
    BaseTransportState :=
  { is_server := is_server, cbs := CallbackSink.defaultProtocol, transport := none }

/-- `cb_connection_made`: the stock protocol only logs. -/
def cb_connection_made : CallbackSink → List TransportEvent
  | .defaultProtocol => [.logEvent "Connection made"]
  | .user i => [.userCallback "cb_connection_made" i]

/-- `cb_data_received`: the stock protocol only logs. -/
def cb_data_received : CallbackSink → List TransportEvent
  | .defaultProtocol => [.logEvent "Data received"]
  | .user i => [.userCallback "cb_data_received" i]

/-- `cb_connection_lost`: the stock protocol only logs. -/
def cb_connection_lost : CallbackSink → List TransportEvent
  | .defaultProtocol => [.logEvent "Connection lost"]
  | .user i => [.userCallback "cb_connection_lost" i]

/-- `connection_made`: store the transport, fire
`self._cbs.cb_connection_made(transport)`. -/
def connection_made (s : BaseTransportState) (t : Nat) :
    BaseTransportState × List TransportEvent :=
  ({ s with transport := some t }, cb_connection_made s.cbs)

/-- `data_received`: fire `self._cbs.cb_data_received(data)`. -/
def data_received (s : BaseTransportState) (_data : List Nat) : List TransportEvent :=
  cb_data_received s.cbs

/-- `connection_lost`: fire `self._cbs.cb_connection_lost(exc)`. -/
def connection_lost (s : BaseTransportState) (_exc : Option String) : List TransportEvent :=
  cb_connection_lost s.cbs

section BuildPacketLemmas

/-- `buildPacket` written out byte by byte. -/
lemma buildPacket_eq (m : ModbusMessage) :
    buildPacket m = m.transaction_id / 256 % 256 :: m.transaction_id % 256 ::
      m.protocol_id / 256 % 256 :: m.protocol_id % 256 ::
      (m.data.length + 2) / 256 % 256 :: (m.data.length + 2) % 256 ::
      m.unit_id % 256 :: m.function_code % 256 :: m.data := by
  simp [buildPacket, u16be, u8v]

lemma buildPacket_length (m : ModbusMessage) :
    (buildPacket m).length = 8 + m.data.length := by
  rw [buildPacket_eq]; simp; omega

/-- Parsing the MBAP header off a built packet recovers the packed
fields, provided they were in `struct.pack` range. -/
lemma parseHeader_buildPacket (m : ModbusMessage)
    (h1 : m.transaction_id < 65536) (h2 : m.protocol_id < 65536)
    (h3 : m.unit_id < 256) (h5 : m.data.length + 2 < 65536) :
    parseHeader (buildPacket m) =
      ⟨m.transaction_id, m.protocol_id, m.data.length + 2, m.unit_id⟩ := by
  rw [buildPacket_eq]
  simp only [parseHeader, byteAt, List.getD_cons_zero, List.getD_cons_succ, Header.mk.injEq]
  refine ⟨?_, ?_, ?_, ?_⟩ <;> omega

/-- A built packet always passes `checkFrame`, which installs the
packed header fields into the state. -/
lemma checkFrame_buildPacket (m : ModbusMessage) (h : Header)
    (h1 : m.transaction_id < 65536) (h2 : m.protocol_id < 65536)
    (h3 : m.unit_id < 256) (h5 : m.data.length + 2 < 65536) :
    checkFrame ⟨buildPacket m, h⟩ =
      (true, ⟨buildPacket m, ⟨m.transaction_id, m.protocol_id, m.data.length + 2, m.unit_id⟩⟩) := by
  have hlen := buildPacket_length m
  have hready : isFrameReady ⟨buildPacket m, h⟩ := by
    simp only [isFrameReady, hsize, hlen]; omega
  have hparse := parseHeader_buildPacket m h1 h2 h3 h5
  rw [checkFrame]
  rw [if_pos hready]
  simp only [hparse, hlen]
  rw [if_neg (by omega)]
  rw [if_pos (by simp [hsize]; omega)]

/-- `getFrame` on a checked built packet returns exactly the PDU bytes:
function code followed by the payload. -/
lemma getFrame_buildPacket (m : ModbusMessage) (h4 : m.function_code < 256) :
    getFrame ⟨buildPacket m, ⟨m.transaction_id, m.protocol_id, m.data.length + 2, m.unit_id⟩⟩ =
      m.function_code :: m.data := by
  have hlen := buildPacket_length m
  have htake : (buildPacket m).take (hsize + (m.data.length + 2) - 1) = buildPacket m := by
    apply List.take_of_length_le
    simp [hsize, hlen]
    omega
  simp only [getFrame, htake]
  rw [buildPacket_eq]
  simp only [hsize, List.drop_succ_cons, List.drop_zero]
  rw [Nat.mod_eq_of_lt h4]

end BuildPacketLemmas

/-- Claim C2: for every well-formed PDU and MBAP header, decoding the
bytes produced by `buildPacket` recovers exactly the same PDU bytes
(function code plus payload, via `getFrame`) and the same `tid`, `pid`
and `uid` (via `populateResult`). -/
theorem claim_c2_roundtrip (m : ModbusMessage)
    (h1 : m.transaction_id < 65536) (h2 : m.protocol_id < 65536)
    (h3 : m.unit_id < 256) (h4 : m.function_code < 256)
    (h5 : m.data.length + 2 < 65536) :
    (checkFrame (addToFrame initialState (buildPacket m))).1 = true ∧
    getFrame (checkFrame (addToFrame initialState (buildPacket m))).2 =
      m.function_code :: m.data ∧
    ∀ r : MbResult, populateResult (checkFrame (addToFrame initialState (buildPacket m))).2 r =
      { r with
          transaction_id := m.transaction_id
          protocol_id := m.protocol_id
          unit_id := m.unit_id } := by
  have hadd : addToFrame initialState (buildPacket m) = ⟨buildPacket m, emptyHeader⟩ := by
    simp [addToFrame, initialState]
  rw [hadd, checkFrame_buildPacket m emptyHeader h1 h2 h3 h5]
  refine ⟨rfl, getFrame_buildPacket m h4, fun r => ?_⟩
  simp [populateResult]

/-- Witness for claim C2 at the concrete read-coils request. -/
theorem claim_c2_roundtrip_witness :
    (checkFrame (addToFrame initialState (buildPacket ⟨1, 0, 17, 1, [0, 0, 0, 1]⟩))).1 = true ∧
    getFrame (checkFrame (addToFrame initialState (buildPacket ⟨1, 0, 17, 1, [0, 0, 0, 1]⟩))).2 =
      (1 : Nat) :: [0, 0, 0, 1] ∧
    ∀ r : MbResult,
      populateResult (checkFrame (addToFrame initialState (buildPacket ⟨1, 0, 17, 1, [0, 0, 0, 1]⟩))).2 r =
        { r with transaction_id := 1, protocol_id := 0, unit_id := 17 } :=
  claim_c2_roundtrip ⟨1, 0, 17, 1, [0, 0, 0, 1]⟩ (by decide) (by decide) (by decide)
    (by decide) (by decide)

/-- Claim C3: `buildPacket` emits a 7-byte big-endian MBAP header whose
length field equals `len(pdu) + 1` (the byte count of uid, function
code and payload), and the concrete read-coils request
`fc=0x01, start=0x0000, count=0x0001, uid=0x11, tid=0x0001` encodes to
`00 01 00 00 00 06 11 01 00 00 00 01`. -/
theorem claim_c3_mbap_length :
    (∀ m : ModbusMessage, m.data.length + 2 < 65536 →
      (parseHeader (buildPacket m)).len = (m.function_code :: m.data).length + 1) ∧
    buildPacket ⟨0x0001, 0, 0x11, 0x01, [0x00, 0x00, 0x00, 0x01]⟩ =
      [0x00, 0x01, 0x00, 0x00, 0x00, 0x06, 0x11, 0x01, 0x00, 0x00, 0x00, 0x01] := by
  constructor
  · intro m h5
    rw [buildPacket_eq]
    simp only [parseHeader, byteAt, List.getD_cons_zero, List.getD_cons_succ,
      List.length_cons]
    omega
  · decide

/-- Witness for claim C3 at the concrete read-coils request. -/
theorem claim_c3_mbap_length_witness :
    (parseHeader (buildPacket ⟨0x0001, 0, 0x11, 0x01, [0x00, 0x00, 0x00, 0x01]⟩)).len =
      ((0x01 : Nat) :: [0x00, 0x00, 0x00, 0x01]).length + 1 :=
  claim_c3_mbap_length.1 ⟨0x0001, 0, 0x11, 0x01, [0x00, 0x00, 0x00, 0x01]⟩ (by decide)

section LoopLemmas

/-- `checkFrame` only succeeds on a ready buffer whose parsed length is
at least 2 and whose body is fully buffered; on success it installs the
parsed header and leaves the buffer untouched. -/
lemma checkFrame_true {s s1 : FramerState} (h : checkFrame s = (true, s1)) :
    isFrameReady s ∧ s1 = ⟨s.buffer, parseHeader s.buffer⟩ ∧
      2 ≤ (parseHeader s.buffer).len ∧
      (parseHeader s.buffer).len ≤ s.buffer.length - hsize + 1 := by
  unfold checkFrame at h
  by_cases hr : isFrameReady s
  · rw [if_pos hr] at h
    by_cases h2 : (parseHeader s.buffer).len < 2
    · rw [if_pos h2] at h
      simp at h
    · rw [if_neg h2] at h
      by_cases h3 : (parseHeader s.buffer).len ≤ s.buffer.length - hsize + 1
      · rw [if_pos h3] at h
        rw [Prod.mk.injEq] at h
        exact ⟨hr, h.2.symm, by omega, h3⟩
      · rw [if_neg h3] at h
        simp at h
  · rw [if_neg hr] at h
    simp at h

/-- The decode loop on an empty buffer with a zeroed header immediately
breaks. -/
lemma processLoop_empty (d : Decoder) (units : List Nat) (single : Bool)
    (n : Nat) (acc : List MbResult) (hn : 1 ≤ n) :
    processLoop d units single n ⟨[], emptyHeader⟩ acc = .ok (⟨[], emptyHeader⟩, acc) := by
  cases n with
  | zero => omega
  | succ m => simp [processLoop, isFrameReady, hsize]

lemma isFrameReady_one_le {s : FramerState} (h : isFrameReady s) : 1 ≤ s.buffer.length := by
  unfold isFrameReady hsize at h; omega

/-- `_process` with `error=False` in the branch-free form used by the
symbolic proofs. -/
lemma processFrame_normal (d : Decoder) (s : FramerState) :
    processFrame d s false =
      match d (getFrame s) with
      | none => .error (.unableToDecode, s)
      | some result => .ok (advanceFrame s, populateResult s result) := by
  unfold processFrame
  simp

/-- When the first decode attempt of a call fails `checkFrame` or the
unit-id check, `resetFrame` runs and the call returns normally with an
empty buffer, a zeroed header and nothing delivered. -/
lemma processIncomingPacket_reset (d : Decoder) (units : List Nat) (single : Bool)
    (s : FramerState) (data : List Nat)
    (hready : isFrameReady (addToFrame s data))
    (hfail : (checkFrame (addToFrame s data)).1 = false ∨
      validate_unit_id units single (checkFrame (addToFrame s data)).2.header = false) :
    processIncomingPacket d units single s data = .ok (⟨[], emptyHeader⟩, []) := by
  have h1 : 1 ≤ (addToFrame s data).buffer.length := isFrameReady_one_le hready
  show processLoop d units single ((addToFrame s data).buffer.length + 1) (addToFrame s data) [] = _
  rw [processLoop, if_pos hready]
  rcases hc : checkFrame (addToFrame s data) with ⟨b, s1⟩
  rw [hc] at hfail
  cases b with
  | false =>
    simp only []
    exact processLoop_empty d units single _ _ h1
  | true =>
    simp only [] at hfail ⊢
    rcases hfail with hfail | hfail
    · exact absurd hfail (by simp)
    · rw [if_neg (by simp [hfail])]
      exact processLoop_empty d units single _ _ h1

/-- `_process` only advances the frame on success. -/
lemma processFrame_ok_state {d : Decoder} {s s2 : FramerState} {er : Bool} {r : MbResult}
    (h : processFrame d s er = .ok (s2, r)) : s2 = advanceFrame s := by
  simp only [processFrame] at h
  rcases hd : d (if er = true then getRawFrame s else getFrame s) with - | result
  · rw [hd] at h; simp at h
  · rw [hd] at h
    simp only [] at h
    by_cases hc : er = true ∧ result.function_code < 0x80
    · rw [if_pos hc] at h; simp at h
    · rw [if_neg hc] at h
      rw [Except.ok.injEq, Prod.mk.injEq] at h
      exact h.1.symm

/-- When `_process` raises, the framer state is unchanged: the raise
happens before `advanceFrame`. -/
lemma processFrame_err_state {d : Decoder} {s : FramerState} {er : Bool} {m : MbError}
    {st : FramerState} (h : processFrame d s er = .error (m, st)) : st = s := by
  simp only [processFrame] at h
  rcases hd : d (if er = true then getRawFrame s else getFrame s) with - | result
  · rw [hd] at h
    simp only [Except.error.injEq, Prod.mk.injEq] at h
    exact h.2.symm
  · rw [hd] at h
    simp only [] at h
    by_cases hc : er = true ∧ result.function_code < 0x80
    · rw [if_pos hc] at h
      simp only [Except.error.injEq, Prod.mk.injEq] at h
      exact h.2.symm
    · rw [if_neg hc] at h; simp at h

lemma processFrame_err_not_fuel {d : Decoder} {s : FramerState} {er : Bool} {me : MbError}
    {st : FramerState} (h : processFrame d s er = .error (me, st)) :
    me ≠ .fuelExhausted := by
  simp only [processFrame] at h
  rcases hd : d (if er = true then getRawFrame s else getFrame s) with - | result
  · rw [hd] at h
    simp only [Except.error.injEq, Prod.mk.injEq] at h
    rw [← h.1]
    simp
  · rw [hd] at h
    simp only [] at h
    by_cases hc : er = true ∧ result.function_code < 0x80
    · rw [if_pos hc] at h
      simp only [Except.error.injEq, Prod.mk.injEq] at h
      rw [← h.1]
      simp
    · rw [if_neg hc] at h
      simp at h

/-- Characterization of the normal exits of the decode loop: either the
exit went through `advanceFrame`/`resetFrame` (zeroed header, at most
one leftover byte) or the loop broke immediately on its entry state. -/
lemma processLoop_ok_cases {d : Decoder} {units : List Nat} {single : Bool}
    {n : Nat} {s s' : FramerState} {acc rs : List MbResult}
    (h : processLoop d units single n s acc = .ok (s', rs)) :
    (s'.header = emptyHeader ∧ s'.buffer.length ≤ 1) ∨
      (s' = s ∧ ¬isFrameReady s ∧ (s.buffer = [] ∨ 2 ≤ s.header.len)) := by
  induction n generalizing s acc with
  | zero => simp [processLoop] at h
  | succ m ih =>
    rw [processLoop] at h
    by_cases hr : isFrameReady s
    · rw [if_pos hr] at h
      rcases hc : checkFrame s with ⟨b, s1⟩
      rw [hc] at h
      cases b with
      | true =>
        simp only [] at h
        by_cases hv : validate_unit_id units single s1.header = true
        · rw [if_pos hv] at h
          rcases hp : processFrame d s1 false with e | ⟨s2, r⟩
          · rw [hp] at h; simp at h
          · rw [hp] at h
            simp only [] at h
            rcases ih h with h1 | ⟨heq, -, h3⟩
            · exact Or.inl h1
            · have hs2 : s2 = advanceFrame s1 := processFrame_ok_state hp
              subst heq
              rw [hs2] at h3 ⊢
              rcases h3 with h3 | h3
              · exact Or.inl ⟨rfl, by rw [h3]; simp⟩
              · exact absurd h3 (by simp [advanceFrame, emptyHeader])
        · rw [if_neg hv] at h
          rcases ih h with h1 | ⟨rfl, -, h3⟩
          · exact Or.inl h1
          · exact Or.inl ⟨rfl, by simp [resetFrame]⟩
      | false =>
        simp only [] at h
        rcases ih h with h1 | ⟨rfl, -, h3⟩
        · exact Or.inl h1
        · exact Or.inl ⟨rfl, by simp [resetFrame]⟩
    · rw [if_neg hr] at h
      by_cases he : s.buffer ≠ [] ∧ s.header.len < 2
      · rw [if_pos he] at h
        rcases hp : processFrame d s true with e | ⟨s2, r⟩
        · rw [hp] at h; simp at h
        · rw [hp] at h
          simp only [Except.ok.injEq, Prod.mk.injEq] at h
          obtain ⟨rfl, -⟩ := h
          have hs2 : s2 = advanceFrame s := processFrame_ok_state hp
          subst hs2
          refine Or.inl ⟨rfl, ?_⟩
          have hlen : s.buffer.length ≤ hsize := by
            unfold isFrameReady at hr; omega
          simp only [advanceFrame, List.length_drop]
          unfold hsize at hlen ⊢
          omega
      · rw [if_neg he] at h
        simp only [Except.ok.injEq, Prod.mk.injEq] at h
        obtain ⟨rfl, -⟩ := h
        right
        refine ⟨rfl, hr, ?_⟩
        push_neg at he
        by_cases hb : s.buffer = []
        · exact Or.inl hb
        · exact Or.inr (by have := he hb; omega)

/-- Characterization of raising exits: barring fuel exhaustion, the
state kept by an escaping exception either has a still-ready buffer
(decode failure on a framed message) or a header length below 2 (the
error-path decode of leftover bytes). -/
lemma processLoop_err_cases {d : Decoder} {units : List Nat} {single : Bool}
    {n : Nat} {s : FramerState} {acc : List MbResult} {e : RunError}
    (h : processLoop d units single n s acc = .error e) :
    e.err = .fuelExhausted ∨ e.state.header.len < 2 ∨ hsize < e.state.buffer.length := by
  induction n generalizing s acc with
  | zero =>
    simp only [processLoop, Except.error.injEq] at h
    rw [← h]
    exact Or.inl rfl
  | succ m ih =>
    rw [processLoop] at h
    by_cases hr : isFrameReady s
    · rw [if_pos hr] at h
      rcases hc : checkFrame s with ⟨b, s1⟩
      rw [hc] at h
      cases b with
      | true =>
        simp only [] at h
        by_cases hv : validate_unit_id units single s1.header = true
        · rw [if_pos hv] at h
          rcases hp : processFrame d s1 false with ⟨me, st⟩ | ⟨s2, r⟩
          · rw [hp] at h
            simp only [Except.error.injEq] at h
            have hst : st = s1 := processFrame_err_state hp
            obtain ⟨hready1, hs1, -, -⟩ := checkFrame_true hc
            rw [← h]
            right; right
            rw [hst, hs1]
            exact hready1
          · rw [hp] at h
            simp only [] at h
            exact ih h
        · rw [if_neg hv] at h
          exact ih h
      | false =>
        simp only [] at h
        exact ih h
    · rw [if_neg hr] at h
      by_cases he : s.buffer ≠ [] ∧ s.header.len < 2
      · rw [if_pos he] at h
        rcases hp : processFrame d s true with ⟨me, st⟩ | ⟨s2, r⟩
        · rw [hp] at h
          simp only [Except.error.injEq] at h
          have hst : st = s := processFrame_err_state hp
          rw [← h]
          right; left
          rw [hst]
          exact he.2
        · rw [hp] at h
          simp at h
      · rw [if_neg he] at h
        simp at h

/-- Fuel adequacy: every looping iteration strictly shrinks the buffer,
so with fuel `buffer length + 1` the loop never exhausts its fuel. -/
lemma processLoop_no_fuelExhausted {d : Decoder} {units : List Nat} {single : Bool}
    {n : Nat} {s : FramerState} {acc : List MbResult} {e : RunError}
    (hn : s.buffer.length < n)
    (h : processLoop d units single n s acc = .error e) :
    e.err ≠ .fuelExhausted := by
  induction n generalizing s acc with
  | zero => omega
  | succ m ih =>
    rw [processLoop] at h
    by_cases hr : isFrameReady s
    · rw [if_pos hr] at h
      have hr8 : hsize < s.buffer.length := hr
      rcases hc : checkFrame s with ⟨b, s1⟩
      rw [hc] at h
      cases b with
      | true =>
        simp only [] at h
        obtain ⟨-, hs1, h2le, -⟩ := checkFrame_true hc
        by_cases hv : validate_unit_id units single s1.header = true
        · rw [if_pos hv] at h
          rcases hp : processFrame d s1 false with ⟨me, st⟩ | ⟨s2, r⟩
          · rw [hp] at h
            simp only [Except.error.injEq] at h
            rw [← h]
            exact processFrame_err_not_fuel hp
          · rw [hp] at h
            simp only [] at h
            have hs2 : s2 = advanceFrame s1 := processFrame_ok_state hp
            refine ih ?_ h
            rw [hs2, hs1]
            simp only [advanceFrame, List.length_drop]
            unfold hsize at hr8 ⊢
            omega
        · rw [if_neg hv] at h
          refine ih ?_ h
          simp only [resetFrame, List.length_nil]
          unfold hsize at hr8
          omega
      | false =>
        simp only [] at h
        refine ih ?_ h
        simp only [resetFrame, List.length_nil]
        unfold hsize at hr8
        omega
    · rw [if_neg hr] at h
      by_cases he : s.buffer ≠ [] ∧ s.header.len < 2
      · rw [if_pos he] at h
        rcases hp : processFrame d s true with ⟨me, st⟩ | ⟨s2, r⟩
        · rw [hp] at h
          simp only [Except.error.injEq] at h
          rw [← h]
          exact processFrame_err_not_fuel hp
        · rw [hp] at h
          simp at h
      · rw [if_neg he] at h
        simp at h

/-- Every reachable framer state satisfies `headerInv`. -/
lemma reachable_headerInv {d : Decoder} {s : FramerState} (h : Reachable d s) :
    headerInv s := by
  induction h with
  | init => exact Or.inl (by decide)
  | stepOk hre hp ih =>
    rename_i s units single data s' rs
    have hp' : processLoop d units single ((addToFrame s data).buffer.length + 1)
        (addToFrame s data) [] = .ok (s', rs) := hp
    rcases processLoop_ok_cases hp' with ⟨hh, -⟩ | ⟨heq, -, -⟩
    · exact Or.inl (by rw [hh]; decide)
    · rw [heq]
      rcases ih with ih | ih
      · exact Or.inl ih
      · right
        simp only [addToFrame, List.length_append]
        unfold hsize at ih ⊢
        omega
  | stepErr hre hp ih =>
    rename_i s units single data e
    have hp' : processLoop d units single ((addToFrame s data).buffer.length + 1)
        (addToFrame s data) [] = .error e := hp
    have hfuel : e.err ≠ .fuelExhausted :=
      processLoop_no_fuelExhausted (by omega) hp'
    rcases processLoop_err_cases hp' with hf | hlen | hbuf
    · exact absurd hf hfuel
    · exact Or.inl hlen
    · exact Or.inr hbuf

end LoopLemmas

/-- Claim C1 (refuted: the code resets the buffer on a partial frame):
the fragmented-TCP scenario evaluated on the code.  Feeding the whole
stream `00 01 00 00 00 04 11 01 01 01` at once emits one frame and
leaves the buffer empty; feeding `00 01 00 00 00 04 11 01` first makes
`checkFrame` fail (body not yet buffered), so `resetFrame` discards the
chunk and nothing is emitted, and the follow-up feed `01 01` is
error-decoded and raises instead of completing the frame. -/
theorem claim_c1_fragmented_feed_bug :
    processIncomingPacket decdr [0x11] false initialState
        [0x00, 0x01, 0x00, 0x00, 0x00, 0x04, 0x11, 0x01, 0x01, 0x01] =
      .ok (⟨[], emptyHeader⟩, [⟨1, [1, 1], 1, 0, 0x11⟩]) ∧
    processIncomingPacket decdr [0x11] false initialState
        [0x00, 0x01, 0x00, 0x00, 0x00, 0x04, 0x11, 0x01] =
      .ok (⟨[], emptyHeader⟩, []) ∧
    processIncomingPacket decdr [0x11] false ⟨[], emptyHeader⟩ [0x01, 0x01] =
      .error ⟨.invalidMessageReceived ⟨1, [1], 0, 0, 0⟩, ⟨[0x01, 0x01], emptyHeader⟩, []⟩ :=
  ⟨rfl, rfl, rfl⟩

/-- Claim C5 counterexample: with a parsed length field of 0 the buffer
is advanced by `7 + 0 - 1 = 6` bytes, not exactly past the 7-byte
header: byte `0xAA` (the uid position of the header) stays in the
buffer. -/
theorem claim_c5_counterexample :
    (parseHeader [0, 0, 0, 0, 0, 0, 0xAA, 0xBB]).len < 2 ∧
    (checkFrame ⟨[0, 0, 0, 0, 0, 0, 0xAA, 0xBB], emptyHeader⟩).2.buffer = [0xAA, 0xBB] ∧
    (checkFrame ⟨[0, 0, 0, 0, 0, 0, 0xAA, 0xBB], emptyHeader⟩).2.buffer ≠
      List.drop hsize [0, 0, 0, 0, 0, 0, 0xAA, 0xBB] := by
  decide

/-- Claim C5 as amended: when the parsed header has length below 2,
`checkFrame` advances the buffer by `hsize + length - 1` bytes (exactly
past the header only when the length is 1, one byte short when it is
0), reports the frame invalid, and the frame is not delivered; the
enclosing `processIncomingPacket` then discards the rest of the buffer
via `resetFrame` and returns normally with nothing delivered. -/
theorem claim_c5_short_frame_advance (d : Decoder) (units : List Nat) (single : Bool)
    (s : FramerState) (data : List Nat)
    (hready : isFrameReady (addToFrame s data))
    (hlen : (parseHeader (addToFrame s data).buffer).len < 2) :
    checkFrame (addToFrame s data) =
      (false, ⟨(addToFrame s data).buffer.drop
        (hsize + (parseHeader (addToFrame s data).buffer).len - 1), emptyHeader⟩) ∧
    processIncomingPacket d units single s data = .ok (⟨[], emptyHeader⟩, []) := by
  have hc : checkFrame (addToFrame s data) =
      (false, ⟨(addToFrame s data).buffer.drop
        (hsize + (parseHeader (addToFrame s data).buffer).len - 1), emptyHeader⟩) := by
    unfold checkFrame
    rw [if_pos hready, if_pos hlen]
    rfl
  exact ⟨hc, processIncomingPacket_reset d units single s data hready (Or.inl (by rw [hc]))⟩

/-- Witness for the amended claim C5. -/
theorem claim_c5_short_frame_advance_witness :
    checkFrame (addToFrame initialState [0, 0, 0, 1, 0, 0, 0xAA, 0xBB]) =
      (false, ⟨(addToFrame initialState [0, 0, 0, 1, 0, 0, 0xAA, 0xBB]).buffer.drop
        (hsize + (parseHeader (addToFrame initialState [0, 0, 0, 1, 0, 0, 0xAA, 0xBB]).buffer).len - 1),
        emptyHeader⟩) ∧
    processIncomingPacket decdr [1] false initialState [0, 0, 0, 1, 0, 0, 0xAA, 0xBB] =
      .ok (⟨[], emptyHeader⟩, []) :=
  claim_c5_short_frame_advance decdr [1] false initialState [0, 0, 0, 1, 0, 0, 0xAA, 0xBB]
    (by decide) (by decide)

/-- Claim C6 counterexample: a complete frame whose MBAP header carries
`pid = 7 ≠ 0` is not reported invalid; it is decoded and delivered to
the callback, with `protocol_id = 7` populated on the result. -/
theorem claim_c6_counterexample :
    (parseHeader [0, 1, 0, 7, 0, 4, 0x11, 1, 9, 9]).pid ≠ 0 ∧
    processIncomingPacket decdr [0x11] false initialState [0, 1, 0, 7, 0, 4, 0x11, 1, 9, 9] =
      .ok (⟨[], emptyHeader⟩, [⟨1, [9, 9], 1, 7, 0x11⟩]) :=
  ⟨by decide, rfl⟩

/-- Claim C6 as amended: the socket framer never inspects `pid`; a
complete well-formed frame is decoded and delivered whatever its `pid`
value, with that `pid` populated on the result. -/
theorem claim_c6_pid_ignored (d : Decoder) (units : List Nat) (m : ModbusMessage) (r : MbResult)
    (h1 : m.transaction_id < 65536) (h2 : m.protocol_id < 65536)
    (h3 : m.unit_id < 256) (h4 : m.function_code < 256) (h5 : m.data.length + 2 < 65536)
    (hu : units.contains m.unit_id = true)
    (hd : d (m.function_code :: m.data) = some r) :
    processIncomingPacket d units false initialState (buildPacket m) =
      .ok (⟨[], emptyHeader⟩,
        [{ r with
             transaction_id := m.transaction_id
             protocol_id := m.protocol_id
             unit_id := m.unit_id }]) := by
  have hadd : addToFrame initialState (buildPacket m) = ⟨buildPacket m, emptyHeader⟩ := by
    simp [addToFrame, initialState]
  have hlen := buildPacket_length m
  show processLoop d units false ((addToFrame initialState (buildPacket m)).buffer.length + 1)
      (addToFrame initialState (buildPacket m)) [] = _
  rw [hadd]
  have hready : isFrameReady ⟨buildPacket m, emptyHeader⟩ := by
    simp only [isFrameReady, hsize, hlen]; omega
  rw [processLoop, if_pos hready, checkFrame_buildPacket m emptyHeader h1 h2 h3 h5]
  simp only []
  rw [if_pos (by unfold validate_unit_id; rw [Bool.false_or]; exact hu)]
  rw [processFrame_normal, getFrame_buildPacket m h4, hd]
  simp only []
  have hadv : advanceFrame
      ⟨buildPacket m, ⟨m.transaction_id, m.protocol_id, m.data.length + 2, m.unit_id⟩⟩ =
      ⟨[], emptyHeader⟩ := by
    simp only [advanceFrame]
    congr 1
    apply List.drop_of_length_le
    simp [hsize, hlen]
    omega
  rw [hadv]
  rw [processLoop_empty d units false _ _ (by simp [hlen]; omega)]
  rfl

/-- Witness for the amended claim C6, at a frame with `pid = 7`. -/
theorem claim_c6_pid_ignored_witness :
    processIncomingPacket decdr [0x11] false initialState (buildPacket ⟨1, 7, 0x11, 1, [9, 9]⟩) =
      .ok (⟨[], emptyHeader⟩,
        [{ (⟨1, [9, 9], 0, 0, 0⟩ : MbResult) with
             transaction_id := 1
             protocol_id := 7
             unit_id := 0x11 }]) :=
  claim_c6_pid_ignored decdr [0x11] ⟨1, 7, 0x11, 1, [9, 9]⟩ ⟨1, [9, 9], 0, 0, 0⟩
    (by decide) (by decide) (by decide) (by decide) (by decide) (by decide) rfl

/-- Claim C7: a complete frame whose header uid is not in the accepted
unit list (with single mode off) is dropped silently: the call returns
normally, the callback is not invoked, and the buffer is reset. -/
theorem claim_c7_unit_mismatch_drop (d : Decoder) (units : List Nat)
    (s : FramerState) (data : List Nat) (s1 : FramerState)
    (hcheck : checkFrame (addToFrame s data) = (true, s1))
    (hu : units.contains s1.header.uid = false) :
    processIncomingPacket d units false s data = .ok (⟨[], emptyHeader⟩, []) := by
  obtain ⟨hready, -, -, -⟩ := checkFrame_true hcheck
  apply processIncomingPacket_reset d units false s data hready
  right
  rw [hcheck]
  show (false || units.contains s1.header.uid) = false
  rw [Bool.false_or]
  exact hu

/-- Witness for claim C7: uid 5 against accepted list `[3]`. -/
theorem claim_c7_unit_mismatch_drop_witness :
    processIncomingPacket decdr [3] false initialState [0, 0, 0, 0, 0, 2, 5, 0x91] =
      .ok (⟨[], emptyHeader⟩, []) :=
  claim_c7_unit_mismatch_drop decdr [3] initialState [0, 0, 0, 0, 0, 2, 5, 0x91]
    ⟨[0, 0, 0, 0, 0, 2, 5, 0x91], ⟨0, 0, 2, 5⟩⟩ rfl (by decide)

/-- Claim C8 counterexample: with a decoder that fails on function code
`0x55`, the first call surfaces the failure but leaves the offending
frame in the buffer; a second call feeding a perfectly decodable frame
raises the same error again and delivers nothing, so the framer is not
usable for subsequent frames without external intervention. -/
theorem claim_c8_counterexample :
    processIncomingPacket dBad [1] false initialState [0, 0, 0, 0, 0, 3, 1, 0x55, 9] =
      .error ⟨.unableToDecode, ⟨[0, 0, 0, 0, 0, 3, 1, 0x55, 9], ⟨0, 0, 3, 1⟩⟩, []⟩ ∧
    processIncomingPacket dBad [1] false ⟨[0, 0, 0, 0, 0, 3, 1, 0x55, 9], ⟨0, 0, 3, 1⟩⟩
        [0, 0, 0, 0, 0, 3, 1, 1, 7] =
      .error ⟨.unableToDecode,
        ⟨[0, 0, 0, 0, 0, 3, 1, 0x55, 9, 0, 0, 0, 0, 0, 3, 1, 1, 7], ⟨0, 0, 3, 1⟩⟩, []⟩ :=
  ⟨rfl, rfl⟩

/-- Claim C8 as amended: when a correctly delimited frame fails PDU
decode, the failure is surfaced to the caller as
`ModbusIOException("Unable to decode request")` rather than swallowed,
but the offending frame is not consumed: the buffer at raise time still
holds every byte, so subsequent calls hit the same frame again. -/
theorem claim_c8_decode_failure_surfaced (d : Decoder) (units : List Nat) (single : Bool)
    (s : FramerState) (data : List Nat) (s1 : FramerState)
    (hcheck : checkFrame (addToFrame s data) = (true, s1))
    (hv : validate_unit_id units single s1.header = true)
    (hd : d (getFrame s1) = none) :
    processIncomingPacket d units single s data = .error ⟨.unableToDecode, s1, []⟩ ∧
      s1.buffer = (addToFrame s data).buffer := by
  obtain ⟨hready, hs1, -, -⟩ := checkFrame_true hcheck
  refine ⟨?_, by rw [hs1]⟩
  show processLoop d units single ((addToFrame s data).buffer.length + 1) (addToFrame s data) [] = _
  rw [processLoop, if_pos hready, hcheck]
  simp only []
  rw [if_pos hv, processFrame_normal, hd]

/-- Witness for the amended claim C8. -/
theorem claim_c8_decode_failure_surfaced_witness :
    processIncomingPacket dBad [1] false initialState [0, 0, 0, 0, 0, 3, 1, 0x55, 9] =
      .error ⟨.unableToDecode, ⟨[0, 0, 0, 0, 0, 3, 1, 0x55, 9], ⟨0, 0, 3, 1⟩⟩, []⟩ ∧
    (⟨[0, 0, 0, 0, 0, 3, 1, 0x55, 9], ⟨0, 0, 3, 1⟩⟩ : FramerState).buffer =
      (addToFrame initialState [0, 0, 0, 0, 0, 3, 1, 0x55, 9]).buffer :=
  claim_c8_decode_failure_surfaced dBad [1] false initialState [0, 0, 0, 0, 0, 3, 1, 0x55, 9]
    ⟨[0, 0, 0, 0, 0, 3, 1, 0x55, 9], ⟨0, 0, 3, 1⟩⟩ rfl rfl rfl

/-- Claim C9: whenever the first decode attempt of a call on a ready
buffer fails the frame check (including a complete header with an
incomplete body) or fails the unit-id check, `resetFrame` discards the
entire buffer and zeroes the header, so bytes of any later frames
already received are lost and nothing is delivered. -/
theorem claim_c9_failed_check_resets (d : Decoder) (units : List Nat) (single : Bool)
    (s : FramerState) (data : List Nat)
    (hready : isFrameReady (addToFrame s data))
    (hfail : (checkFrame (addToFrame s data)).1 = false ∨
      validate_unit_id units single (checkFrame (addToFrame s data)).2.header = false) :
    processIncomingPacket d units single s data = .ok (⟨[], emptyHeader⟩, []) :=
  processIncomingPacket_reset d units single s data hready hfail

/-- Witness for claim C9: an incomplete head frame followed by a
complete valid frame; everything, the later frame included, is
discarded. -/
theorem claim_c9_failed_check_resets_witness :
    processIncomingPacket decdr [0x11] false initialState
        [0, 1, 0, 0, 0, 80, 0x11, 1, 0, 0, 0, 0, 0, 2, 5, 0x91] =
      .ok (⟨[], emptyHeader⟩, []) :=
  claim_c9_failed_check_resets decdr [0x11] false initialState
    [0, 1, 0, 0, 0, 80, 0x11, 1, 0, 0, 0, 0, 0, 2, 5, 0x91]
    (by decide) (Or.inl (by decide))

/-- Claim C4: after every call to `processIncomingPacket` that returns
normally, starting from any state reachable from the initial empty
state by any sequence of feeds, the buffer is either (a) empty, (b) a
prefix strictly shorter than the 7-byte minimum header, or (c) a
complete header plus an incomplete body.  (In fact on every normal
return at most one byte remains, so cases (a) and (b) already cover
everything.) -/
theorem claim_c4_buffer_invariant (d : Decoder) (units : List Nat) (single : Bool)
    (s : FramerState) (data : List Nat) (s' : FramerState) (rs : List MbResult)
    (hreach : Reachable d s)
    (hrun : processIncomingPacket d units single s data = .ok (s', rs)) :
    s'.buffer = [] ∨ s'.buffer.length < hsize ∨
      (hsize ≤ s'.buffer.length ∧
        s'.buffer.length < hsize + (parseHeader s'.buffer).len - 1) := by
  have hrun' : processLoop d units single ((addToFrame s data).buffer.length + 1)
      (addToFrame s data) [] = .ok (s', rs) := hrun
  rcases processLoop_ok_cases hrun' with ⟨-, hl⟩ | ⟨heq, hnr, hor⟩
  · right; left
    unfold hsize
    omega
  · rcases hor with hb | hlen2
    · left
      rw [heq, hb]
    · exfalso
      have hinv := reachable_headerInv hreach
      rcases hinv with hinv | hinv
      · have : (addToFrame s data).header = s.header := rfl
        rw [this] at hlen2
        omega
      · apply hnr
        show hsize < (addToFrame s data).buffer.length
        simp only [addToFrame, List.length_append]
        unfold hsize at hinv ⊢
        omega

/-- Witness for claim C4: one complete frame fed from the initial
state. -/
theorem claim_c4_buffer_invariant_witness :
    (⟨[], emptyHeader⟩ : FramerState).buffer = [] ∨
      (⟨[], emptyHeader⟩ : FramerState).buffer.length < hsize ∨
      (hsize ≤ (⟨[], emptyHeader⟩ : FramerState).buffer.length ∧
        (⟨[], emptyHeader⟩ : FramerState).buffer.length <
          hsize + (parseHeader (⟨[], emptyHeader⟩ : FramerState).buffer).len - 1) :=
  claim_c4_buffer_invariant decdr [5] false initialState [0, 0, 0, 0, 0, 2, 5, 0x91]
    ⟨[], emptyHeader⟩ [⟨0x91, [], 0, 0, 5⟩] Reachable.init rfl

/-- Claim C10: `BaseTransport.__init__` ignores its `callbacks`
parameter: `_cbs` is always a freshly created `BaseTransportProtocol`,
whose methods only log, so `data_received`, `connection_made` and
`connection_lost` never invoke any user-supplied callback object, for
every `callbacks` argument passed in. -/
theorem claim_c10_callbacks_ignored (is_server : Bool) (callbacks : Option CallbackSink)
    (data : List Nat) (t : Nat) (exc : Option String) :
    (baseTransportInit is_server callbacks).cbs = CallbackSink.defaultProtocol ∧
    data_received (baseTransportInit is_server callbacks) data =
      [TransportEvent.logEvent "Data received"] ∧
    (connection_made (baseTransportInit is_server callbacks) t).2 =
      [TransportEvent.logEvent "Connection made"] ∧
    connection_lost (baseTransportInit is_server callbacks) exc =
      [TransportEvent.logEvent "Connection lost"] ∧
    ∀ m i, TransportEvent.userCallback m i ∉
      data_received (baseTransportInit is_server callbacks) data :=
  ⟨rfl, rfl, rfl, rfl,
    fun m i => by simp [data_received, baseTransportInit, cb_data_received]⟩

end Pymodbus
